import Mathlib

/-!
Verification of the HarperBot API repository: a shallow embedding of the
ReAct agent loop (`src/react_agent/graph.py`), its tool-call parsing and
calculator tool (`src/react_agent/tools.py`), and the two HTTP endpoint
handlers (`routers/chat.py`, `routers/react_agent.py`), together with
theorems settling the specification's claims about them.

Python integers are unbounded, so they are modelled as `Nat`/`Int` with
no wrap-around.  Python exceptions are modelled as values of an explicit
exception type threaded through `Except`.  The external language-model
clients are modelled as function parameters: the network response is the
only source of nondeterminism, and every handler is a pure function of
it.
-/

/-! ## tools.py — the calculator tool -/

/-- The allowed character set of `calculator` in `tools.py`:
`allowed_chars = set('0123456789+-*/.() ')`. -/
def allowedChars : List Char := "0123456789+-*/.() ".data

/-- Tokens of the arithmetic sublanguage accepted by the model of
Python `eval` below. -/
inductive Tok where
  | num (n : Nat)
  | plus
  | minus
  | star
  | lparen
  | rparen
  deriving DecidableEq, Repr

/-- Numeric value of a digit string (most significant digit first). -/
def digitsVal (ds : List Char) : Nat :=
  ds.foldl (fun a c => a * 10 + (c.toNat - 48)) 0

/-- Modelled Python 3 lexing of an arithmetic expression.  Fuel-indexed
so that the definition is structurally recursive; `pyEvalArith` supplies
enough fuel for any input.  A decimal literal with a leading zero and a
later non-zero digit lexes to `none`, as Python 3 raises
`SyntaxError: leading zeros in decimal integer literals are not
permitted` on it (a literal consisting only of zeros, such as `00`, is
legal Python and lexes to 0).  Characters outside the modelled integer
sublanguage (in particular `/` and `.`) lex to `none`. -/
def tokenize : Nat → List Char → Option (List Tok)
  | 0, _ => none
  | _, [] => some []
  | fuel + 1, c :: cs =>
    if c = ' ' then tokenize fuel cs
    else if c.isDigit then
      let ds := (c :: cs).takeWhile Char.isDigit
      let rest := (c :: cs).dropWhile Char.isDigit
      if c == '0' && !(ds.all fun d => d == '0') then none
      else (tokenize fuel rest).map fun ts => Tok.num (digitsVal ds) :: ts
    else if c = '+' then (tokenize fuel cs).map fun ts => Tok.plus :: ts
    else if c = '-' then (tokenize fuel cs).map fun ts => Tok.minus :: ts
    else if c = '*' then (tokenize fuel cs).map fun ts => Tok.star :: ts
    else if c = '(' then (tokenize fuel cs).map fun ts => Tok.lparen :: ts
    else if c = ')' then (tokenize fuel cs).map fun ts => Tok.rparen :: ts
    else none

mutual

/-- Expression level of the modelled evaluator: terms combined by `+`/`-`. -/
def pExpr : Nat → List Tok → Option (Int × List Tok)
  | 0, _ => none
  | f + 1, ts => (pTerm f ts).bind fun vr => pExprRest f vr.1 vr.2

/-- Left-associated fold of the remaining `+`/`-` operations. -/
def pExprRest : Nat → Int → List Tok → Option (Int × List Tok)
  | 0, _, _ => none
  | f + 1, acc, Tok.plus :: ts => (pTerm f ts).bind fun vr => pExprRest f (acc + vr.1) vr.2
  | f + 1, acc, Tok.minus :: ts => (pTerm f ts).bind fun vr => pExprRest f (acc - vr.1) vr.2
  | _ + 1, acc, ts => some (acc, ts)

/-- Term level: factors combined by `*`. -/
def pTerm : Nat → List Tok → Option (Int × List Tok)
  | 0, _ => none
  | f + 1, ts => (pFactor f ts).bind fun vr => pTermRest f vr.1 vr.2

/-- Left-associated fold of the remaining `*` operations. -/
def pTermRest : Nat → Int → List Tok → Option (Int × List Tok)
  | 0, _, _ => none
  | f + 1, acc, Tok.star :: ts => (pFactor f ts).bind fun vr => pTermRest f (acc * vr.1) vr.2
  | _ + 1, acc, ts => some (acc, ts)

/-- Factor level: literals, parenthesised expressions, unary signs. -/
def pFactor : Nat → List Tok → Option (Int × List Tok)
  | 0, _ => none
  | _ + 1, Tok.num n :: ts => some ((n : Int), ts)
  | f + 1, Tok.lparen :: ts =>
    (pExpr f ts).bind fun vr =>
      match vr.2 with
      | Tok.rparen :: ts2 => some (vr.1, ts2)
      | _ => none
  | f + 1, Tok.minus :: ts => (pFactor f ts).map fun vr => (-vr.1, vr.2)
  | f + 1, Tok.plus :: ts => pFactor f ts
  | _ + 1, _ => none

end

/-- Modelled semantics of Python 3 `eval` on strings drawn from the
calculator's allowed character set, restricted to the integer
sublanguage of `+`, `-`, `*`, parentheses, decimal literals and unary
signs.  Returns `none` outside that sublanguage: where Python 3 `eval`
raises (malformed input, decimal literals with leading zeros), and also
on the operators this model does not cover — `/` (float division),
`//`, `**` and float literals written with `.` — whose results this
model does not assert; no theorem below claims anything about inputs on
which this model returns `none`. -/
def pyEvalArith (s : String) : Option Int :=
  match tokenize (s.data.length + 1) s.data with
  | none => none
  | some toks =>
    match pExpr (4 * toks.length + 4) toks with
    | some (v, []) => some v
    | _ => none

/-- The `calculator` tool of `tools.py`, parametric in the evaluator so
that the character guard can be shown independent of evaluation: the
guard is checked first, and only when every character of the expression
is in `allowedChars` is the evaluator consulted.  A `none` evaluation
models the `except` branch returning a `Calculation error:` string
(whose exception-specific suffix is modelled abstractly). -/
def calculatorWith (ev : String → Option Int) (expression : String) : String :=
  if expression.data.all (fun c => allowedChars.contains c) then
    match ev expression with
    | some n => toString n
    | none => "Calculation error: unsupported or malformed expression"
  else "Error: Invalid characters in expression"

/-- `calculator` from `tools.py`: the character guard followed by Python
`eval`, the latter modelled by `pyEvalArith`. -/
def calculator (expression : String) : String :=
  calculatorWith pyEvalArith expression

/-- `weather_lookup` from `tools.py` (a pure placeholder string). -/
def weather_lookup (city : String) : String :=
  "Weather information for " ++ city ++
    ": This is a placeholder. In a real implementation, you would integrate with a weather API like OpenWeatherMap."

/-- `get_tools` from `tools.py`: the tool registry, as a name-indexed
association list.  `search_web` (network) and `get_current_time`
(wall clock) perform external I/O and are modelled as parameters. -/
def get_tools (search_web : String → String) (now : String) :
    List (String × (String → String)) :=
  [("search_web", search_web),
   ("calculator", calculator),
   ("get_current_time", fun _ => now),
   ("weather_lookup", weather_lookup)]

/-! ## Python string primitives, modelled structurally over `List Char` -/

/-- Python `str.strip()`: remove whitespace from both ends. -/
def pyStrip (s : String) : String :=
  ⟨((s.data.dropWhile Char.isWhitespace).reverse.dropWhile Char.isWhitespace).reverse⟩

/-- Python `s.startswith(marker)`. -/
def pyStartsWith (s marker : String) : Bool :=
  marker.data.isPrefixOf s.data

/-- Split a character list at every occurrence of `c` (Python
`str.split` with a one-character separator, empty pieces kept). -/
def splitChar (c : Char) : List Char → List (List Char)
  | [] => [[]]
  | x :: xs =>
    match splitChar c xs with
    | [] => [[]]
    | g :: gs => if x = c then [] :: g :: gs else (x :: g) :: gs

/-- Python `s.split(c)` for a one-character separator. -/
def pySplit (c : Char) (s : String) : List String :=
  (splitChar c s.data).map fun l => ⟨l⟩

/-- Python `sep.join(parts)`. -/
def joinSep (sep : String) : List String → String
  | [] => ""
  | [x] => x
  | x :: y :: rest => x ++ sep ++ joinSep sep (y :: rest)

/-! ## graph.py — parse_tool_call -/

/-- Python `line.split(":", 2)`: split on `:` into at most three pieces,
the final piece keeping any further colons. -/
def pySplitColon2 (line : String) : List String :=
  let ps := pySplit ':' line
  if ps.length ≤ 3 then ps
  else ps.take 2 ++ [joinSep ":" (ps.drop 2)]

/-- The line scan of `parse_tool_call` in `graph.py`: for each line, if
its stripped form starts with `Tool:` and splitting it on `:` (capped at
three pieces) yields at least three parts, return the trimmed second and
third parts; otherwise continue with the remaining lines. -/
def parse_lines : List String → Option String × Option String
  | [] => (none, none)
  | line :: rest =>
    if pyStartsWith (pyStrip line) "Tool:" then
      let parts := pySplitColon2 line
      if 3 ≤ parts.length then
        (some (pyStrip (parts.getD 1 "")), some (pyStrip (parts.getD 2 "")))
      else parse_lines rest
    else parse_lines rest

/-- `parse_tool_call` from `graph.py`: split the content on newlines and
scan the lines. -/
def parse_tool_call (content : String) : Option String × Option String :=
  parse_lines (pySplit '\n' content)

/-- Parser following the claim's words exactly, for comparison with the
source: the first line whose trimmed form starts with `Tool:` is the
tool declaration; that line is split on `:` into at most three parts,
the tool name is the second part trimmed and the arguments are the third
part trimmed; if no line starts with `Tool:`, return `(none, none)`. -/
def parse_tool_call_claim (content : String) : Option String × Option String :=
  match (pySplit '\n' content).find? (fun l => pyStartsWith (pyStrip l) "Tool:") with
  | none => (none, none)
  | some line =>
    (((pySplitColon2 line).get? 1).map pyStrip,
     ((pySplitColon2 line).get? 2).map pyStrip)

/-- The amended description of the parser: the first line whose trimmed
form starts with `Tool:` and which splits on `:` into at least three
capped parts is the declaration; a `Tool:` line with fewer than two
colons is skipped and scanning continues. -/
def parse_tool_call_amended (content : String) : Option String × Option String :=
  match (pySplit '\n' content).find?
      (fun l => pyStartsWith (pyStrip l) "Tool:" && decide (3 ≤ (pySplitColon2 l).length)) with
  | none => (none, none)
  | some line =>
    (some (pyStrip ((pySplitColon2 line).getD 1 "")),
     some (pyStrip ((pySplitColon2 line).getD 2 "")))

/-! ## graph.py — the agent state machine -/

/-- Message roles used by the graph (`HumanMessage` / `AIMessage`). -/
inductive MRole where
  | human
  | ai
  deriving DecidableEq, Repr

/-- A transcript entry. -/
structure BMessage where
  role : MRole
  content : String
  deriving DecidableEq, Repr

/-- One `tool_results` entry: the dict
`{"tool": ..., "input": ..., "output": ...}` appended by `act_node`. -/
structure ToolRes where
  tool : String
  input : String
  output : String
  deriving DecidableEq, Repr

/-- `AgentState` from `graph.py`.  LangGraph merges each node's partial
dict update into the state; the node embeddings below return the merged
state directly. -/
structure AgentState where
  messages : List BMessage
  current_step : Nat
  max_steps : Nat
  tool_results : List ToolRes
  final_answer : String
  deriving DecidableEq, Repr

/-- Errors a node can raise.  `indexError` models `messages[-1]` on an
empty list; `recursionLimit` models exhausting the run's step budget
(never reached with sufficient fuel, as proved below). -/
inductive AgentErr where
  | indexError
  | recursionLimit
  deriving DecidableEq, Repr

/-- The invalid-tool message the LangGraph `ToolExecutor` returns when
the requested name is not registered (its
`invalid_tool_msg_template`): the executor does not raise on unknown
names, it returns this string as the tool output. -/
def invalid_tool_msg (name : String) (reg : List (String × (String → String))) : String :=
  name ++ " is not a valid tool, try one of [" ++
    joinSep ", " (reg.map (fun t => t.1)) ++ "]."

/-- The LangGraph `ToolExecutor` built by `create_react_agent`, modelled
by its documented contract: dispatch on the registered name, returning
the invalid-tool message for unknown names. -/
def tool_executor_invoke (reg : List (String × (String → String)))
    (name args : String) : String :=
  match List.lookup name reg with
  | some f => f args
  | none => invalid_tool_msg name reg

/-- `reason_node` from `graph.py`.  The reasoning prompt is rendered
from the transcript, `current_step` and `max_steps`, and sent to the
model; prompt rendering plus the model call are modelled as the single
external function `llm` of exactly those inputs.  The model text is
appended as an assistant message and `current_step` is incremented. -/
def reason_node (llm : List BMessage → Nat → Nat → String) (s : AgentState) : AgentState :=
  { s with
    messages := s.messages ++ [⟨MRole.ai, llm s.messages s.current_step s.max_steps⟩],
    current_step := s.current_step + 1 }

/-- `act_node` from `graph.py`: read `messages[-1]` (an `IndexError` on
an empty transcript), parse it, and if a non-empty tool name was parsed
(Python truthiness of `if tool_name:`), invoke the tool executor and
append the `(tool, input, output)` record to `tool_results` and a
`Tool result: `-prefixed observation to `messages`.  Otherwise the state
is returned unchanged. -/
def act_node (reg : List (String × (String → String))) (s : AgentState) :
    Except AgentErr AgentState :=
  match s.messages.getLast? with
  | none => Except.error AgentErr.indexError
  | some last =>
    match parse_tool_call last.content with
    | (some name, some args) =>
      if name = "" then Except.ok s
      else
        let result := tool_executor_invoke reg name args
        Except.ok { s with
          tool_results := s.tool_results ++ [⟨name, args, result⟩],
          messages := s.messages ++ [⟨MRole.human, "Tool result: " ++ result⟩] }
    | _ => Except.ok s

/-- `should_continue_node` from `graph.py`: returns the state as is. -/
def should_continue_node (s : AgentState) : AgentState :=
  s

/-- Targets of the conditional edge out of `should_continue`. -/
inductive Route where
  | reason
  | final_answer
  deriving DecidableEq, Repr

/-- The conditional-edge lambda of `create_react_agent`:
`"reason" if x["current_step"] < x["max_steps"] else "final_answer"`. -/
def should_continue_edge (s : AgentState) : Route :=
  if s.current_step < s.max_steps then Route.reason else Route.final_answer

/-- `final_answer_node` from `graph.py`: render the final prompt from
the transcript and `tool_results`, call the model once, and set
`final_answer`; prompt rendering plus the call are the external
function `llmF`. -/
def final_answer_node (llmF : List BMessage → List ToolRes → String) (s : AgentState) :
    AgentState :=
  { s with final_answer := llmF s.messages s.tool_results }

/-- Nodes of the compiled graph. -/
inductive GNode where
  | reason
  | act
  | should_continue
  | final_answer
  | done
  deriving DecidableEq, Repr

/-- The static edges added by `create_react_agent` (`done` stands for
LangGraph's `END`); the edge out of `should_continue` is the
conditional `should_continue_edge`. -/
def graph_edges : List (GNode × GNode) :=
  [(GNode.reason, GNode.act),
   (GNode.act, GNode.should_continue),
   (GNode.final_answer, GNode.done)]

/-- Number of REASON/ACT cycles the compiled graph performs from state
`s`: the entry point is `reason`, so one cycle always runs; thereafter
the loop continues while `current_step < max_steps`. -/
def cyclesFrom (s : AgentState) : Nat :=
  if s.current_step < s.max_steps then s.max_steps - s.current_step else 1

/-- Execution of the compiled graph from a state at the `reason` node:
reason, act, should_continue, then either loop back to reason or run
final_answer and stop.  Fuel-indexed for structural recursion;
`runAgent` supplies sufficient fuel.  Alongside the final state, the
list of `current_step` values observed at each entry to `reason` is
returned. -/
def runReact (llm : List BMessage → Nat → Nat → String)
    (reg : List (String × (String → String)))
    (llmF : List BMessage → List ToolRes → String) :
    Nat → AgentState → Except AgentErr (AgentState × List Nat)
  | 0, _ => Except.error AgentErr.recursionLimit
  | fuel + 1, s =>
    match act_node reg (reason_node llm s) with
    | Except.error e => Except.error e
    | Except.ok s2 =>
      let s3 := should_continue_node s2
      match should_continue_edge s3 with
      | Route.reason =>
        match runReact llm reg llmF fuel s3 with
        | Except.error e => Except.error e
        | Except.ok (fin, steps) => Except.ok (fin, s.current_step :: steps)
      | Route.final_answer =>
        Except.ok (final_answer_node llmF s3, [s.current_step])

/-- A full run of the compiled graph from an initial state, with enough
fuel for the loop to reach its bound. -/
def runAgent (llm : List BMessage → Nat → Nat → String)
    (reg : List (String × (String → String)))
    (llmF : List BMessage → List ToolRes → String)
    (s : AgentState) : Except AgentErr (AgentState × List Nat) :=
  runReact llm reg llmF (s.max_steps + 1) s

/-! ## routers/chat.py — the chat endpoint -/

/-- Message roles accepted by the chat endpoint's request schema. -/
inductive ChatRole where
  | user
  | assistant
  deriving DecidableEq, Repr, BEq

/-- A chat request message. -/
structure ChatMsg where
  role : ChatRole
  content : String
  deriving DecidableEq, Repr

/-- Python exceptions relevant to the handlers: `fastapi.HTTPException`
(status code and detail), the three `openai` error classes matched by
the outer handlers, and any other exception carrying its `str()` text
(`ValueError` from unsupported model names, provider client errors
swallowed by the inner handlers, and so on). -/
inductive PyExc where
  | http (code : Nat) (detail : String)
  | authErr (msg : String)
  | rateErr (msg : String)
  | apiErr (msg : String)
  | generic (msg : String)
  deriving DecidableEq, Repr

/-- Python `str()` of a modelled exception.  Starlette's `HTTPException`
prints as `"{status_code}: {detail}"`; the others print their message. -/
def strOfExc : PyExc → String
  | PyExc.http code detail => toString code ++ ": " ++ detail
  | PyExc.authErr m => m
  | PyExc.rateErr m => m
  | PyExc.apiErr m => m
  | PyExc.generic m => m

/-- Provider invocations observable during one chat request. -/
inductive PCall where
  | primary
  | fallback
  deriving DecidableEq, Repr

/-- Outcome of an HTTP handler: a successful response body, or an
`HTTPException` escaping to the framework as a status and detail. -/
inductive ChatOutcome where
  | ok (response : String)
  | err (status : Nat) (detail : String)
  deriving DecidableEq, Repr

/-- The `try` body of `chat` in `routers/chat.py`, together with the
sequence of provider calls it makes.  In source order: the
`OPENAI_API_KEY` check (raising an `HTTPException(500)`), the
empty-messages check (`HTTPException(400)`), the no-user-message check
(`HTTPException(400)`), then the GPT-5 responses call with a GPT-4
chat-completions fallback; any exception from a provider call is caught
by the inner blanket `except` blocks, so only the explicitly raised
`HTTPException`s escape this body.  The provider calls (network plus
response-attribute access) are the external functions `p` and `f` from
the last user message's content to a reply or an exception. -/
def chatBody (apiKey : Option String) (msgs : List ChatMsg)
    (p f : String → Except PyExc String) : Except PyExc String × List PCall :=
  match apiKey with
  | none =>
    (Except.error (PyExc.http 500
      "OPENAI_API_KEY environment variable is not set. Please set it in your .env file or environment."), [])
  | some _ =>
    match msgs with
    | [] => (Except.error (PyExc.http 400 "At least one message is required"), [])
    | _ :: _ =>
      match (msgs.filter fun m => m.role == ChatRole.user).map (fun m => m.content) with
      | [] => (Except.error (PyExc.http 400 "At least one user message is required"), [])
      | u :: us =>
        let input := (u :: us).getLastD ""
        match p input with
        | Except.ok r => (Except.ok r, [PCall.primary])
        | Except.error e1 =>
          match f input with
          | Except.ok r => (Except.ok r, [PCall.primary, PCall.fallback])
          | Except.error e2 =>
            (Except.error (PyExc.http 500
              ("Both GPT-5 responses API and GPT-4 fallback failed. GPT-5 error: " ++
                strOfExc e1 ++ ", Fallback error: " ++ strOfExc e2)),
             [PCall.primary, PCall.fallback])

/-- The `chat` endpoint of `routers/chat.py`: the body above wrapped in
the four `except` clauses, in source order `AuthenticationError`,
`RateLimitError`, `APIError`, `Exception`.  An `HTTPException` raised
inside the body matches none of the three `openai` clauses and is
therefore caught by the final blanket clause and rewrapped as a 500
`Internal server error`. -/
def chat (apiKey : Option String) (msgs : List ChatMsg)
    (p f : String → Except PyExc String) : ChatOutcome × List PCall :=
  match chatBody apiKey msgs p f with
  | (Except.ok r, calls) => (ChatOutcome.ok r, calls)
  | (Except.error e, calls) =>
    match e with
    | PyExc.authErr _ =>
      (ChatOutcome.err 401 "OpenAI API authentication failed. Please check your API key.", calls)
    | PyExc.rateErr _ =>
      (ChatOutcome.err 429 "OpenAI API rate limit exceeded. Please try again later.", calls)
    | PyExc.apiErr m => (ChatOutcome.err 500 ("OpenAI API error: " ++ m), calls)
    | e => (ChatOutcome.err 500 ("Internal server error: " ++ strOfExc e), calls)

/-! ## routers/react_agent.py — the react endpoint -/

/-- `ReActRequest` from `routers/react_agent.py`. -/
structure ReActRequest where
  query : String
  model : String
  max_iterations : Int
  deriving DecidableEq, Repr

/-- `ReActResponse` from `routers/react_agent.py`. -/
structure ReActResponse where
  answer : String
  reasoning_steps : List String
  tools_used : List String
  deriving DecidableEq, Repr

/-- Outcome of the react endpoint. -/
inductive ReactOutcome where
  | ok (r : ReActResponse)
  | err (status : Nat) (detail : String)
  deriving DecidableEq, Repr

/-- The tool names advertised in the simple agent's prompt:
`[tool.name for tool in get_tools()]`. -/
def simple_tool_names : List String :=
  ["search_web", "calculator", "get_current_time", "weather_lookup"]

/-- The `system_prompt` f-string built by `create_simple_react_agent`. -/
def simpleSystemPrompt (query : String) : String :=
  "You are a helpful AI assistant that can reason about questions and use tools to find answers.\n\nAvailable tools: " ++
    joinSep ", " simple_tool_names ++
    "\n\nThink step by step about what you need to do to answer the user's question. You can use tools if needed.\n\nUser question: " ++
    query ++
    "\n\nPlease provide a clear, helpful answer. If you need to use a tool, mention which one you would use and why."

/-- `create_simple_react_agent` from `routers/react_agent.py`: select a
provider by model-name prefix (raising `ValueError` otherwise), send the
single system prompt to the model, and return the response content as
the answer, the sole reasoning step, and an empty `tools_used` list.
The `max_iterations` argument is accepted and never read, as in the
source.  Both provider clients are the external function `llm` from the
prompt to the reply content. -/
def create_simple_react_agent (llm : String → String) (query model : String)
    (_max_iterations : Int) : Except PyExc (String × List String × List String) :=
  if pyStartsWith model "gpt" then
    let resp := llm (simpleSystemPrompt query)
    Except.ok (resp, [resp], [])
  else if pyStartsWith model "claude" then
    let resp := llm (simpleSystemPrompt query)
    Except.ok (resp, [resp], [])
  else Except.error (PyExc.generic ("Unsupported model: " ++ model))

/-- The `react_agent` endpoint of `routers/react_agent.py`: pick the
credential by model prefix (an `HTTPException(500)` when absent), run
`create_simple_react_agent`, and wrap any exception — including the
explicitly raised `HTTPException` — in the blanket `except` clause as a
500 `ReAct agent error`. -/
def react_agent (openaiKey anthropicKey : Option String) (llm : String → String)
    (req : ReActRequest) : ReactOutcome :=
  match (if pyStartsWith req.model "gpt" then openaiKey else anthropicKey) with
  | none =>
    ReactOutcome.err 500 ("ReAct agent error: " ++
      strOfExc (PyExc.http 500 (req.model.toUpper ++ "_API_KEY environment variable is not set.")))
  | some _ =>
    match create_simple_react_agent llm req.query req.model req.max_iterations with
    | Except.ok (ans, steps, tools) => ReactOutcome.ok ⟨ans, steps, tools⟩
    | Except.error e => ReactOutcome.err 500 ("ReAct agent error: " ++ strOfExc e)

/-- The last user message's content, `user_messages[-1]` in
`routers/chat.py`. -/
def lastUserInput (msgs : List ChatMsg) : String :=
  ((msgs.filter fun m => m.role == ChatRole.user).map (fun m => m.content)).getLastD ""

/-! ## Concrete instances used in witnesses and counterexamples -/

/-- A reasoning model that never declares a tool. -/
def demoLlmPlain : List BMessage → Nat → Nat → String :=
  fun _ _ _ => "I can answer directly."

/-- A reasoning model that always declares a calculator call. -/
def demoLlmTool : List BMessage → Nat → Nat → String :=
  fun _ _ _ => "Tool: calculator: 2+2"

/-- A final-answer model used in concrete runs. -/
def demoLlmF : List BMessage → List ToolRes → String :=
  fun _ _ => "final"

/-- A concrete tool registry: `get_tools` with a failing search backend
and a fixed clock. -/
def demoReg : List (String × (String → String)) :=
  get_tools (fun q => "Search failed: " ++ q) "2024-01-01 00:00:00"

/-- An initial agent state with `max_steps = 0`. -/
def demoS0 : AgentState :=
  ⟨[⟨MRole.human, "What is 2+2?"⟩], 0, 0, [], ""⟩

/-- An initial agent state with `max_steps = 3`. -/
def demoS3 : AgentState :=
  ⟨[⟨MRole.human, "What is 2+2?"⟩], 0, 3, [], ""⟩

/-- A state whose last transcript entry declares an unregistered tool. -/
def demoUnknownState : AgentState :=
  ⟨[⟨MRole.ai, "Tool: magic: 42"⟩], 0, 3, [], ""⟩

/-- A primary provider that always fails with message `A`. -/
def c6p : String → Except PyExc String :=
  fun _ => Except.error (PyExc.generic "A")

/-- A fallback provider that always fails with message `B`. -/
def c6f : String → Except PyExc String :=
  fun _ => Except.error (PyExc.generic "B")

/-! ## Helper lemmas -/

/-- On any state whose transcript is non-empty, `act_node` returns
normally and leaves `current_step` and `max_steps` unchanged. -/
theorem act_ok (reg : List (String × (String → String))) (s : AgentState) (m : BMessage)
    (hl : s.messages.getLast? = some m) :
    ∃ s2, act_node reg s = Except.ok s2 ∧ s2.current_step = s.current_step ∧
      s2.max_steps = s.max_steps := by
  simp only [act_node, hl]
  rcases hp : parse_tool_call m.content with ⟨n?, a?⟩
  cases n? with
  | none => cases a? <;> exact ⟨s, rfl, rfl, rfl⟩
  | some n =>
    cases a? with
    | none => exact ⟨s, rfl, rfl, rfl⟩
    | some a =>
      by_cases hn : n = ""
      · simp only [hn, if_pos rfl]
        exact ⟨s, rfl, rfl, rfl⟩
      · simp only [if_neg hn]
        exact ⟨_, rfl, rfl, rfl⟩

/-- The transcript is non-empty after `reason_node`, and its last entry
is the model's reply. -/
theorem reason_getLast (llm : List BMessage → Nat → Nat → String) (s : AgentState) :
    (reason_node llm s).messages.getLast? =
      some ⟨MRole.ai, llm s.messages s.current_step s.max_steps⟩ := by
  simp [reason_node]

/-- Characterisation of a run of the compiled graph with sufficient
fuel: the run succeeds, `reason` is entered exactly at the step values
`current_step, current_step+1, ...` for `cyclesFrom` many cycles, the
final state's `final_answer` is the final model call on the final
transcript and tool results, and the final `current_step` is the entry
step plus the cycle count. -/
theorem runReact_spec (llm : List BMessage → Nat → Nat → String)
    (reg : List (String × (String → String)))
    (llmF : List BMessage → List ToolRes → String) :
    ∀ (fuel : Nat) (s : AgentState), s.max_steps - s.current_step < fuel →
    ∃ fin, runReact llm reg llmF fuel s =
        Except.ok (fin, List.range' s.current_step (cyclesFrom s)) ∧
      fin.final_answer = llmF fin.messages fin.tool_results ∧
      fin.max_steps = s.max_steps ∧
      fin.current_step = s.current_step + cyclesFrom s := by
  intro fuel
  induction fuel with
  | zero => intro s h; omega
  | succ f ih =>
    intro s h
    obtain ⟨s2, hact, hstep2, hmax2⟩ :=
      act_ok reg (reason_node llm s) _ (reason_getLast llm s)
    have hstep2' : s2.current_step = s.current_step + 1 := by
      rw [hstep2]; simp [reason_node]
    have hmax2' : s2.max_steps = s.max_steps := by
      rw [hmax2]; simp [reason_node]
    simp only [runReact, hact, should_continue_node, should_continue_edge, hstep2', hmax2']
    by_cases hlt : s.current_step + 1 < s.max_steps
    · simp only [if_pos hlt]
      obtain ⟨fin, hrun, hfa, hmaxf, hstepf⟩ := ih s2 (by omega)
      rw [hrun]
      have hc2 : cyclesFrom s2 = s.max_steps - (s.current_step + 1) := by
        unfold cyclesFrom
        rw [hstep2', hmax2', if_pos hlt]
      have hc : cyclesFrom s = s.max_steps - s.current_step := by
        unfold cyclesFrom
        rw [if_pos (by omega)]
      refine ⟨fin, ?_, hfa, by omega, by omega⟩
      have hsplit : s.max_steps - s.current_step = (s.max_steps - (s.current_step + 1)) + 1 := by
        omega
      rw [hc2, hstep2', hc, hsplit, List.range'_succ]
    · simp only [if_neg hlt]
      have hc : cyclesFrom s = 1 := by
        unfold cyclesFrom
        split <;> omega
      refine ⟨final_answer_node llmF s2, ?_, by simp [final_answer_node], ?_, ?_⟩
      · rw [hc]
        rfl
      · simp [final_answer_node, hmax2']
      · simp [final_answer_node, hstep2', hc]

/-- The line scan of the source parser, characterised as a search for
the first line that both starts (after stripping) with `Tool:` and
splits into at least three capped parts. -/
theorem parse_lines_eq_find (ls : List String) :
    parse_lines ls =
      match ls.find?
          (fun l => pyStartsWith (pyStrip l) "Tool:" && decide (3 ≤ (pySplitColon2 l).length)) with
      | none => (none, none)
      | some line =>
        (some (pyStrip ((pySplitColon2 line).getD 1 "")),
         some (pyStrip ((pySplitColon2 line).getD 2 ""))) := by
  induction ls with
  | nil => rfl
  | cons line rest ih =>
    simp only [parse_lines, List.find?_cons]
    by_cases h1 : pyStartsWith (pyStrip line) "Tool:"
    · by_cases h2 : 3 ≤ (pySplitColon2 line).length
      · simp [h1, h2]
      · simp [h1, h2, ih]
    · simp [h1, ih]

/-! ## Claim theorems -/

/-- C3 counterexample: on input whose first `Tool:` line has no second
colon, the source parser skips that line and honours a later one,
whereas the claim's description designates the first `Tool:` line as the
declaration (yielding tool name `calculator` and no third part). -/
theorem c3_first_tool_line_counterexample :
    parse_tool_call "Tool: calculator\nTool: real: args" = (some "real", some "args") ∧
    parse_tool_call_claim "Tool: calculator\nTool: real: args" = (some "calculator", none) ∧
    ((some "real", some "args") : Option String × Option String) ≠ (some "calculator", none) :=
  ⟨by decide, by decide, by decide⟩

/-- C3 (amended): the parser scans line by line and treats the first
line whose trimmed form starts with `Tool:` AND splits on `:` into at
least three capped parts as the tool declaration — the tool name is the
second part trimmed, the arguments are the third part trimmed (colons
inside the arguments are preserved by the cap); a `Tool:` line with
fewer than two colons is skipped and scanning continues; if no line
qualifies (in particular if no line starts with `Tool:`), the parser
returns `(none, none)`. -/
theorem c3_parser_amended (content : String) :
    parse_tool_call content = parse_tool_call_amended content := by
  unfold parse_tool_call parse_tool_call_amended
  exact parse_lines_eq_find _

/-- C4: an expression containing any character outside
`0-9 + - * / . ( ) space` is rejected with the error string without the
evaluator ever being consulted (the rejection holds for every evaluator,
so no code execution can occur), while a guard-passing expression that
the modelled `eval` values at `n` returns `toString n`; in particular
`calculator "2+2" = "4"`. -/
theorem c4_calculator_safety :
    (∀ (ev : String → Option Int) (e : String),
        e.data.all (fun c => allowedChars.contains c) = false →
        calculatorWith ev e = "Error: Invalid characters in expression") ∧
    (∀ (e : String) (n : Int),
        e.data.all (fun c => allowedChars.contains c) = true →
        pyEvalArith e = some n → calculator e = toString n) ∧
    calculator "2+2" = "4" := by
  refine ⟨?_, ?_, by decide⟩
  · intro ev e h
    unfold calculatorWith
    rw [h]
    rfl
  · intro e n hg he
    unfold calculator calculatorWith
    rw [hg, he]
    rfl

/-- C4 witness: the safety theorem applied at `"import os"` (which
contains disallowed characters) and the arithmetic example. -/
theorem c4_calculator_safety_witness :
    calculator "import os" = "Error: Invalid characters in expression" ∧
    calculator "2+2" = "4" :=
  ⟨c4_calculator_safety.1 pyEvalArith "import os" (by decide),
   c4_calculator_safety.2.2⟩

/-- C9: the DECIDE node leaves every field of the state unchanged, and
its outgoing conditional edge selects `reason` exactly when
`current_step < max_steps` and `final_answer` otherwise. -/
theorem c9_decide_pure (s : AgentState) :
    should_continue_node s = s ∧
    (should_continue_node s).messages = s.messages ∧
    (should_continue_node s).current_step = s.current_step ∧
    (should_continue_node s).max_steps = s.max_steps ∧
    (should_continue_node s).tool_results = s.tool_results ∧
    (should_continue_node s).final_answer = s.final_answer ∧
    (should_continue_edge s = Route.reason ↔ s.current_step < s.max_steps) ∧
    (should_continue_edge s = Route.final_answer ↔ ¬ s.current_step < s.max_steps) := by
  refine ⟨rfl, rfl, rfl, rfl, rfl, rfl, ?_, ?_⟩ <;>
    · unfold should_continue_edge
      by_cases h : s.current_step < s.max_steps <;> simp [h]

/-- C5: with the credential present, a request with an empty message
list — or one with no user message — makes no provider call, but the
explicitly raised `HTTPException(400)` is caught by the handler's
blanket `except Exception` clause and surfaced as a 500
`Internal server error`, not as a 400. -/
theorem c5_validation_returns_500 (key : String) (p f : String → Except PyExc String) :
    chat (some key) [] p f =
      (ChatOutcome.err 500 "Internal server error: 400: At least one message is required", []) ∧
    (∀ c : String, chat (some key) [⟨ChatRole.assistant, c⟩] p f =
      (ChatOutcome.err 500 "Internal server error: 400: At least one user message is required", [])) := by
  exact ⟨rfl, fun c => rfl⟩

/-- C6: with the credential present and a user message available, the
chat handler attempts the primary GPT-5 call first; the fallback GPT-4
call is attempted exactly when the primary fails; each variant is
attempted at most once per request; and when both fail the surfaced
error detail embeds both failure messages (inside the combined
`Both ... failed` text, itself rewrapped by the blanket handler). -/
theorem c6_two_tier_fallback (key : String) (msgs : List ChatMsg)
    (p f : String → Except PyExc String)
    (hu : (msgs.filter fun m => m.role == ChatRole.user).map (fun m => m.content) ≠ []) :
    (∀ r, p (lastUserInput msgs) = Except.ok r →
      chat (some key) msgs p f = (ChatOutcome.ok r, [PCall.primary])) ∧
    (∀ e1, p (lastUserInput msgs) = Except.error e1 →
      (chat (some key) msgs p f).2 = [PCall.primary, PCall.fallback]) ∧
    ((chat (some key) msgs p f).2.count PCall.primary ≤ 1 ∧
     (chat (some key) msgs p f).2.count PCall.fallback ≤ 1) ∧
    (PCall.fallback ∈ (chat (some key) msgs p f).2 →
      ∃ e1, p (lastUserInput msgs) = Except.error e1) ∧
    (∀ e1 e2, p (lastUserInput msgs) = Except.error e1 →
        f (lastUserInput msgs) = Except.error e2 →
      chat (some key) msgs p f =
        (ChatOutcome.err 500 ("Internal server error: " ++
          strOfExc (PyExc.http 500
            ("Both GPT-5 responses API and GPT-4 fallback failed. GPT-5 error: " ++
              strOfExc e1 ++ ", Fallback error: " ++ strOfExc e2))),
         [PCall.primary, PCall.fallback])) := by
  cases msgs with
  | nil => simp at hu
  | cons m ms =>
    cases hU : ((m :: ms).filter fun x => x.role == ChatRole.user).map (fun x => x.content) with
    | nil => exact absurd hU hu
    | cons u us =>
      have hinput : lastUserInput (m :: ms) = (u :: us).getLastD "" := by
        unfold lastUserInput
        rw [hU]
      cases hp : p (lastUserInput (m :: ms)) with
      | ok r1 =>
        have hp' : p ((u :: us).getLastD "") = Except.ok r1 := hinput ▸ hp
        have hchat : chat (some key) (m :: ms) p f = (ChatOutcome.ok r1, [PCall.primary]) := by
          simp only [chat, chatBody, hU, hp']
        have hcalls : (chat (some key) (m :: ms) p f).2 = [PCall.primary] := by
          rw [hchat]
        refine ⟨?_, ?_, ?_, ?_, ?_⟩
        · intro r hr
          cases hr
          exact hchat
        · intro e1 he1
          cases he1
        · rw [hcalls]
          exact ⟨by decide, by decide⟩
        · intro hmem
          rw [hcalls] at hmem
          simp at hmem
        · intro e1 e2 he1 _
          cases he1
      | error e1 =>
        have hp' : p ((u :: us).getLastD "") = Except.error e1 := hinput ▸ hp
        cases hf : f (lastUserInput (m :: ms)) with
        | ok r2 =>
          have hf' : f ((u :: us).getLastD "") = Except.ok r2 := hinput ▸ hf
          have hchat : chat (some key) (m :: ms) p f =
              (ChatOutcome.ok r2, [PCall.primary, PCall.fallback]) := by
            simp only [chat, chatBody, hU, hp', hf']
          have hcalls : (chat (some key) (m :: ms) p f).2 =
              [PCall.primary, PCall.fallback] := by
            rw [hchat]
          refine ⟨?_, ?_, ?_, ?_, ?_⟩
          · intro r hr
            cases hr
          · intro e1' _
            exact hcalls
          · rw [hcalls]
            exact ⟨by decide, by decide⟩
          · intro _
            exact ⟨e1, rfl⟩
          · intro e1' e2 _ he2
            cases he2
        | error e2 =>
          have hf' : f ((u :: us).getLastD "") = Except.error e2 := hinput ▸ hf
          have hchat : chat (some key) (m :: ms) p f =
              (ChatOutcome.err 500 ("Internal server error: " ++
                strOfExc (PyExc.http 500
                  ("Both GPT-5 responses API and GPT-4 fallback failed. GPT-5 error: " ++
                    strOfExc e1 ++ ", Fallback error: " ++ strOfExc e2))),
               [PCall.primary, PCall.fallback]) := by
            simp only [chat, chatBody, hU, hp', hf']
          have hcalls : (chat (some key) (m :: ms) p f).2 =
              [PCall.primary, PCall.fallback] := by
            rw [hchat]
          refine ⟨?_, ?_, ?_, ?_, ?_⟩
          · intro r hr
            cases hr
          · intro e1' _
            exact hcalls
          · rw [hcalls]
            exact ⟨by decide, by decide⟩
          · intro _
            exact ⟨e1, rfl⟩
          · intro e1' e2' he1 he2
            cases he1
            cases he2
            exact hchat

/-- C6 witness: the fallback theorem applied to a request with one user
message and providers that fail with messages `A` and `B`; the surfaced
detail embeds both. -/
theorem c6_two_tier_fallback_witness :
    chat (some "k") [⟨ChatRole.user, "hello"⟩] c6p c6f =
      (ChatOutcome.err 500
        "Internal server error: 500: Both GPT-5 responses API and GPT-4 fallback failed. GPT-5 error: A, Fallback error: B",
       [PCall.primary, PCall.fallback]) :=
  (c6_two_tier_fallback "k" [⟨ChatRole.user, "hello"⟩] c6p c6f (by decide)).2.2.2.2
    (PyExc.generic "A") (PyExc.generic "B") rfl rfl

/-- C1 counterexample: with `max_steps = 0` and `current_step = 0`, the
run performs one REASON/ACT cycle (the list of reason entries is `[0]`,
of length 1), not zero cycles as the claim requires for `N = 0`: the
graph's entry point is `reason`, which executes before the first DECIDE
can force FINAL_ANSWER. -/
theorem c1_zero_iterations_counterexample :
    (runAgent demoLlmPlain demoReg demoLlmF demoS0).map (fun res => res.2) =
      Except.ok [0] ∧
    ([0] : List Nat).length ≠ 0 :=
  ⟨by rfl, by decide⟩

/-- C1 (amended): from an initial state with `current_step = 0` and
`max_steps = N`, the run performs exactly `max N 1` REASON/ACT cycles
before FINAL_ANSWER — exactly `N` whenever `N ≥ 1` — `current_step`
never exceeds `N` at the start of any reasoning iteration, the value
`N` is reached exactly once over the whole run, and a final answer is
produced from the final transcript and tool results.  (The
`max_iterations` argument of `create_react_agent` is not itself read by
any node or edge; the bound is the state's `max_steps` field.) -/
theorem c1_loop_cycle_count_amended (llm : List BMessage → Nat → Nat → String)
    (reg : List (String × (String → String)))
    (llmF : List BMessage → List ToolRes → String)
    (s0 : AgentState) (h0 : s0.current_step = 0) :
    ∃ fin steps, runAgent llm reg llmF s0 = Except.ok (fin, steps) ∧
      steps.length = max s0.max_steps 1 ∧
      (1 ≤ s0.max_steps → steps.length = s0.max_steps) ∧
      (∀ v ∈ steps, v ≤ s0.max_steps) ∧
      (steps ++ [fin.current_step]).count s0.max_steps = 1 ∧
      fin.final_answer = llmF fin.messages fin.tool_results := by
  obtain ⟨fin, hrun, hfa, hmaxf, hstepf⟩ :=
    runReact_spec llm reg llmF (s0.max_steps + 1) s0 (by omega)
  have hc : cyclesFrom s0 = max s0.max_steps 1 := by
    unfold cyclesFrom
    rw [h0]
    split <;> omega
  refine ⟨fin, List.range' s0.current_step (cyclesFrom s0), hrun, ?_, ?_, ?_, ?_, hfa⟩
  · rw [List.length_range', hc]
  · intro h1
    rw [List.length_range', hc]
    omega
  · intro v hv
    rw [List.mem_range'_1] at hv
    omega
  · rw [List.count_append, hstepf, h0, hc]
    rcases Nat.eq_zero_or_pos s0.max_steps with hN | hN
    · rw [hN]
      decide
    · have hmax1 : max s0.max_steps 1 = s0.max_steps := by omega
      rw [hmax1]
      have h1 : (List.range' 0 s0.max_steps).count s0.max_steps = 0 :=
        List.count_eq_zero.mpr (by simp [List.mem_range'_1])
      rw [h1]
      simp

/-- C1 witness: the amended cycle-count theorem at a concrete
three-iteration run. -/
theorem c1_loop_cycle_count_witness :
    ∃ fin steps, runAgent demoLlmTool demoReg demoLlmF demoS3 = Except.ok (fin, steps) ∧
      steps.length = max demoS3.max_steps 1 ∧
      (1 ≤ demoS3.max_steps → steps.length = demoS3.max_steps) ∧
      (∀ v ∈ steps, v ≤ demoS3.max_steps) ∧
      (steps ++ [fin.current_step]).count demoS3.max_steps = 1 ∧
      fin.final_answer = demoLlmF fin.messages fin.tool_results :=
  c1_loop_cycle_count_amended demoLlmTool demoReg demoLlmF demoS3 rfl

/-- C2 counterexample: with `max_steps = 0`, the reasoning model can
declare a tool call in the single REASON/ACT cycle that runs before the
first DECIDE, so a tool executes before FINAL_ANSWER: here the run's
final `tool_results` holds a calculator execution, refuting the claim
that no ACT step executes a tool at `max_iterations = 0`. -/
theorem c2_tool_before_final_counterexample :
    (runAgent demoLlmTool demoReg demoLlmF demoS0).map (fun res => res.1.tool_results) =
      Except.ok [⟨"calculator", "2+2", "4"⟩] ∧
    ([⟨"calculator", "2+2", "4"⟩] : List ToolRes) ≠ [] :=
  ⟨by rfl, by decide⟩

/-- C2 (amended): with `current_step = 0` and `max_steps = 0`, the run
still produces a final answer, and DECIDE routes to FINAL_ANSWER at its
first evaluation; but exactly one REASON/ACT cycle executes before that
first DECIDE (the entry point is REASON), and ACT executes whatever tool
the reasoning output declares, so the run is one cycle followed by the
final-answer node. -/
theorem c2_max_zero_amended (llm : List BMessage → Nat → Nat → String)
    (reg : List (String × (String → String)))
    (llmF : List BMessage → List ToolRes → String)
    (s0 : AgentState) (h0 : s0.current_step = 0) (hm : s0.max_steps = 0) :
    ∃ s2, act_node reg (reason_node llm s0) = Except.ok s2 ∧
      runAgent llm reg llmF s0 = Except.ok (final_answer_node llmF s2, [0]) ∧
      (final_answer_node llmF s2).final_answer = llmF s2.messages s2.tool_results ∧
      should_continue_edge s2 = Route.final_answer := by
  obtain ⟨s2, hact, hstep2, hmax2⟩ :=
    act_ok reg (reason_node llm s0) _ (reason_getLast llm s0)
  have hstep2' : s2.current_step = 1 := by
    rw [hstep2]
    simp [reason_node, h0]
  have hmax2' : s2.max_steps = 0 := by
    rw [hmax2]
    simp [reason_node, hm]
  have hedge : should_continue_edge s2 = Route.final_answer := by
    unfold should_continue_edge
    rw [hstep2', hmax2']
    simp
  refine ⟨s2, hact, ?_, by simp [final_answer_node], hedge⟩
  unfold runAgent
  rw [hm]
  simp only [runReact, hact, should_continue_node, hedge, h0]

/-- C2 witness: the amended `max_steps = 0` theorem at a concrete run
whose reasoning output declares a calculator call. -/
theorem c2_max_zero_witness :
    ∃ s2, act_node demoReg (reason_node demoLlmTool demoS0) = Except.ok s2 ∧
      runAgent demoLlmTool demoReg demoLlmF demoS0 =
        Except.ok (final_answer_node demoLlmF s2, [0]) ∧
      (final_answer_node demoLlmF s2).final_answer = demoLlmF s2.messages s2.tool_results ∧
      should_continue_edge s2 = Route.final_answer :=
  c2_max_zero_amended demoLlmTool demoReg demoLlmF demoS0 rfl rfl

/-- C7: when the last transcript entry parses to a tool call whose
non-empty name is not registered, ACT returns normally (no exception):
it appends the executor's invalid-tool message — which begins with the
unknown tool name — both as a `tool_results` record and as a
`Tool result: ` observation in the transcript, and the graph's static
edge out of `act` leads to the DECIDE node. -/
theorem c7_unknown_tool_no_exception (reg : List (String × (String → String)))
    (s : AgentState) (m : BMessage) (name args : String)
    (hl : s.messages.getLast? = some m)
    (hp : parse_tool_call m.content = (some name, some args))
    (hn : name ≠ "")
    (hu : List.lookup name reg = none) :
    act_node reg s = Except.ok { s with
        tool_results := s.tool_results ++ [⟨name, args, invalid_tool_msg name reg⟩],
        messages := s.messages ++
          [⟨MRole.human, "Tool result: " ++ invalid_tool_msg name reg⟩] } ∧
    (∃ rest, invalid_tool_msg name reg = name ++ rest) ∧
    (GNode.act, GNode.should_continue) ∈ graph_edges := by
  refine ⟨?_, ?_, by decide⟩
  · simp only [act_node, hl, hp]
    rw [if_neg hn]
    simp only [tool_executor_invoke, hu]
  · exact ⟨" is not a valid tool, try one of [" ++
      joinSep ", " (reg.map fun t => t.1) ++ "].",
      by unfold invalid_tool_msg; simp [String.append_assoc]⟩

/-- C7 witness: ACT on a state whose last entry declares the
unregistered tool `magic` against the concrete registry. -/
theorem c7_unknown_tool_witness :
    act_node demoReg demoUnknownState = Except.ok { demoUnknownState with
        tool_results := demoUnknownState.tool_results ++
          [⟨"magic", "42", invalid_tool_msg "magic" demoReg⟩],
        messages := demoUnknownState.messages ++
          [⟨MRole.human, "Tool result: " ++ invalid_tool_msg "magic" demoReg⟩] } ∧
    (∃ rest, invalid_tool_msg "magic" demoReg = "magic" ++ rest) ∧
    (GNode.act, GNode.should_continue) ∈ graph_edges :=
  c7_unknown_tool_no_exception demoReg demoUnknownState ⟨MRole.ai, "Tool: magic: 42"⟩
    "magic" "42" (by rfl) (by decide) (by decide) (by rfl)

/-- Every successful result of `create_simple_react_agent` has an empty
tool list and a single reasoning step equal to the answer. -/
theorem create_simple_shape (llm : String → String) (q mo : String) (mi : Int)
    (x : String × List String × List String)
    (h : create_simple_react_agent llm q mo mi = Except.ok x) :
    x.2.2 = [] ∧ x.2.1 = [x.1] := by
  unfold create_simple_react_agent at h
  split at h
  · cases h
    exact ⟨rfl, rfl⟩
  · split at h
    · cases h
      exact ⟨rfl, rfl⟩
    · cases h

/-- C10: every successful response of the react endpoint has an empty
`tools_used` list and a `reasoning_steps` list that is exactly the
singleton of the returned answer. -/
theorem c10_simple_react_shape (oKey aKey : Option String) (llm : String → String)
    (req : ReActRequest) (r : ReActResponse)
    (h : react_agent oKey aKey llm req = ReactOutcome.ok r) :
    r.tools_used = [] ∧ r.reasoning_steps = [r.answer] := by
  unfold react_agent at h
  rcases hk : (if pyStartsWith req.model "gpt" then oKey else aKey) with _ | k
  · rw [hk] at h
    cases h
  · rw [hk] at h
    rcases hc : create_simple_react_agent llm req.query req.model req.max_iterations with e | x
    · rw [hc] at h
      cases h
    · obtain ⟨h1, h2⟩ := create_simple_shape _ _ _ _ _ hc
      rcases x with ⟨ans, steps, tools⟩
      rw [hc] at h
      cases h
      exact ⟨h1, by simpa using h2⟩

/-- C10 witness: the shape theorem applied to a concrete successful
request. -/
theorem c10_simple_react_witness :
    (ReActResponse.mk "hi" ["hi"] []).tools_used = [] ∧
    (ReActResponse.mk "hi" ["hi"] []).reasoning_steps =
      [(ReActResponse.mk "hi" ["hi"] []).answer] :=
  c10_simple_react_shape (some "k") none (fun _ => "hi") ⟨"q", "gpt-4", 3⟩
    ⟨"hi", ["hi"], []⟩ (by rfl)

/-- C8 counterexample: the react endpoint does not run the §4.1 agent
loop.  With a model that always declares `Tool: calculator: 2+2`, the
endpoint returns the raw model text with `tools_used = []` and invokes
nothing, while the agent loop of `graph.py` run on the same query and
model behaviour executes the calculator on every one of its three
cycles — so the returned `tools_used` does not list the tools the §4.1
loop invokes. -/
theorem c8_no_loop_counterexample :
    react_agent (some "k") none (fun _ => "Tool: calculator: 2+2")
        ⟨"What is 2+2?", "gpt-4", 3⟩ =
      ReactOutcome.ok ⟨"Tool: calculator: 2+2", ["Tool: calculator: 2+2"], []⟩ ∧
    (runAgent demoLlmTool demoReg demoLlmF demoS3).map
        (fun res => res.1.tool_results.map fun t => t.tool) =
      Except.ok ["calculator", "calculator", "calculator"] ∧
    ([] : List String) ≠ ["calculator", "calculator", "calculator"] :=
  ⟨by rfl, by rfl, by decide⟩

/-- C8 (amended): a successful `POST /react` performs a single model
call on a prompt that embeds the query and the advertised tool names —
not the §4.1 loop — and returns that call's text as the answer, the
singleton reasoning-step list, and an always-empty `tools_used`. -/
theorem c8_single_call_amended (oKey aKey : Option String) (llm : String → String)
    (req : ReActRequest) (k : String)
    (hk : (if pyStartsWith req.model "gpt" then oKey else aKey) = some k)
    (hm : pyStartsWith req.model "gpt" = true ∨ pyStartsWith req.model "claude" = true) :
    react_agent oKey aKey llm req =
      ReactOutcome.ok ⟨llm (simpleSystemPrompt req.query),
        [llm (simpleSystemPrompt req.query)], []⟩ := by
  unfold react_agent
  rw [hk]
  unfold create_simple_react_agent
  rcases hm with hg | hcl
  · rw [hg]
    rfl
  · by_cases hg : pyStartsWith req.model "gpt"
    · rw [hg]
      rfl
    · simp only [Bool.not_eq_true] at hg
      rw [hg, hcl]
      rfl

/-- C8 witness: the amended single-call theorem at a concrete request. -/
theorem c8_single_call_witness :
    react_agent (some "k") none (fun _ => "hello") ⟨"q", "gpt-4", 3⟩ =
      ReactOutcome.ok ⟨"hello", ["hello"], []⟩ :=
  c8_single_call_amended (some "k") none (fun _ => "hello") ⟨"q", "gpt-4", 3⟩ "k"
    (by rfl) (Or.inl (by rfl))
